import Mathlib

/-!
Verification development for the OTRadioLink TRV control core:
the temperature-to-target control algorithm (ModelledRadValveState)
and the motor-driver state machine (CurrentSenseValveMotorDirect),
shallowly embedded from the C++ sources.

Machine integers (uint8_t / uint16_t) are embedded as Nat; all the
operations verified here stay well inside the 8/16-bit ranges on the
inputs considered (percentages in [0,100], small tick counts), so no
wrap-around modelling is needed.
-/

set_option autoImplicit false

namespace OTV0P2BASE

/-- Modelled from the spec: OTV0P2BASE::fnmin (utility header not under src).
Minimum of two unsigned values, used e.g. by setTargetPC to clamp inputs
per the input-level clamping contract of section 7. -/
def fnmin (a b : ℕ) : ℕ := if b < a then b else a

/-- Modelled from the spec: OTV0P2BASE::fnmax (utility header not under src).
Maximum of two unsigned values. -/
def fnmax (a b : ℕ) : ℕ := if a < b then b else a

/-- Modelled from the spec: OTV0P2BASE::fnabsdiff (utility header not under src).
Absolute difference of two unsigned values, as used by closeEnoughToTarget
for the absolute-tolerance test. -/
def fnabsdiff (a b : ℕ) : ℕ := if b < a then a - b else b - a

/-- Modelled from the spec: OTV0P2BASE::fnconstrain (utility header not under src).
Constrain a value into [lo,hi], as used by recomputeIntermediatePosition to
clamp the dead-reckoned position into [1,99]. -/
def fnconstrain (v lo hi : ℕ) : ℕ := if v < lo then lo else if hi < v then hi else v

end OTV0P2BASE

namespace OTRadValve

/-- Modelled from the spec: DEFAULT_VALVE_PC_SAFER_OPEN
(OTRadValve_Parameters.h is not under src). The safe-open / call-for-heat
threshold percentage; a representative value strictly between 0 and 100 is
fixed here, and the theorems below do not depend on the particular value. -/
def DEFAULT_VALVE_PC_SAFER_OPEN : ℕ := 50

/-- Modelled from the spec: DEFAULT_VALVE_PC_MODERATELY_OPEN
(OTRadValve_Parameters.h is not under src); the moderately-open percentage,
strictly positive in [1,99], used as getMinPercentOpen for this driver. -/
def DEFAULT_VALVE_PC_MODERATELY_OPEN : ℕ := 45

/-- Modelled from the spec: DEFAULT_VALVE_PC_MIN_REALLY_OPEN
(OTRadValve_Parameters.h is not under src); minimum percentage considered
really open, used for the lingering-close threshold. -/
def DEFAULT_VALVE_PC_MIN_REALLY_OPEN : ℕ := 15

/-- Modelled from the spec: DEFAULT_ANTISEEK_VALVE_REOPEN_DELAY_M
(OTRadValve_Parameters.h is not under src); anti-hunt cooldown in ticks
before the valve may be turned up again after a turn-down. -/
def DEFAULT_ANTISEEK_VALVE_REOPEN_DELAY_M : ℕ := 10

/-- Modelled from the spec: DEFAULT_ANTISEEK_VALVE_RECLOSE_DELAY_M
(OTRadValve_Parameters.h is not under src); anti-hunt cooldown in ticks
before the valve may be turned down again after a turn-up. -/
def DEFAULT_ANTISEEK_VALVE_RECLOSE_DELAY_M : ℕ := 5

/-- Major states of the motor driver, embedded from
CurrentSenseValveMotorDirectBinaryOnly::driverState. -/
inductive driverState : Type where
  | init
  | initWaiting
  | valvePinWithdrawing
  | valvePinWithdrawn
  | valveCalibrating
  | valveNormal
  | valveDecalcinating
  | valveError
deriving DecidableEq, Repr

/-- Per-state scratch data of the motor driver, embedded from the anonymous
union perState of CurrentSenseValveMotorDirectBinaryOnly.  The C++ union
shares storage between the microstates of the different major states; since
the verified property is that the whole scratch area is zeroed on every
transition, it is embedded as the product of all the union members. -/
structure PerState : Type where
  initWaiting_ticksWaited : ℕ
  calibrating_ticksFromOpenToClosed : ℕ
  calibrating_ticksFromClosedToOpen : ℕ
  calibrating_calibState : ℕ
  calibrating_wallclock2sTicks : ℕ
  calibrating_endStopHitCount : ℕ
  withdrawing_wallclock2sTicks : ℕ
  withdrawing_endStopHitCount : ℕ
  withdrawn_valveFitted : Bool
  normal_endStopHitCount : ℕ
deriving DecidableEq, Repr

/-- The all-zero scratch state produced by clearPerState()
(memset of the union to zero). -/
def PerState.cleared : PerState :=
  { initWaiting_ticksWaited := 0
    calibrating_ticksFromOpenToClosed := 0
    calibrating_ticksFromClosedToOpen := 0
    calibrating_calibState := 0
    calibrating_wallclock2sTicks := 0
    calibrating_endStopHitCount := 0
    withdrawing_wallclock2sTicks := 0
    withdrawing_endStopHitCount := 0
    withdrawn_valveFitted := false
    normal_endStopHitCount := 0 }

/-- Mutable state of CurrentSenseValveMotorDirectBinaryOnly
(the binary-only base driver). -/
structure CSVMDBinaryState : Type where
  state : driverState
  perState : PerState
  endStopDetected : Bool
  currentPC : ℕ
  targetPC : ℕ
deriving DecidableEq, Repr

/-- changeState(newState): change major state and clear per-state scratch,
embedded from CurrentSenseValveMotorDirectBinaryOnly::changeState. -/
def changeState (newState : driverState) (s : CSVMDBinaryState) : CSVMDBinaryState :=
  { s with state := newState, perState := PerState.cleared }

/-- Initial state as established by the constructor: all fields at their
in-class initialisers, then changeState(init). -/
def CSVMDBinaryState.initial : CSVMDBinaryState :=
  changeState driverState.init
    { state := driverState.init
      perState := PerState.cleared
      endStopDetected := false
      currentPC := 100
      targetPC := DEFAULT_VALVE_PC_SAFER_OPEN - 1 }

/-- setTargetPC(newPC): set the target percentage, coerced into range,
embedded from CurrentSenseValveMotorDirectBinaryOnly::setTargetPC. -/
def setTargetPC (newPC : ℕ) (s : CSVMDBinaryState) : CSVMDBinaryState :=
  { s with targetPC := OTV0P2BASE.fnmin newPC 100 }

/-- getMinPercentOpen() for this driver, embedded from
CurrentSenseValveMotorDirectBinaryOnly::getMinPercentOpen. -/
def getMinPercentOpen : ℕ := DEFAULT_VALVE_PC_MODERATELY_OPEN

/-- isInNormalRunState(), embedded from
CurrentSenseValveMotorDirectBinaryOnly::isInNormalRunState. -/
def isInNormalRunState (s : CSVMDBinaryState) : Bool :=
  s.state = driverState.valveNormal

/-- isControlledValveReallyOpen(), embedded from
CurrentSenseValveMotorDirectBinaryOnly::isControlledValveReallyOpen. -/
def isControlledValveReallyOpen (s : CSVMDBinaryState) : Bool :=
  isInNormalRunState s && decide (getMinPercentOpen ≤ s.currentPC)

/-- Absolute tolerance of closeEnoughToTarget, embedded from
CurrentSenseValveMotorDirect::absTolerancePC. -/
def absTolerancePC : ℕ := 11

/-- closeEnoughToTarget(targetPC, currentPC), embedded from
CurrentSenseValveMotorDirect::closeEnoughToTarget. -/
def closeEnoughToTarget (targetPC currentPC : ℕ) : Bool :=
  decide (targetPC = currentPC) ||
    decide (OTV0P2BASE.fnabsdiff targetPC currentPC ≤ absTolerancePC) ||
    (decide (targetPC < DEFAULT_VALVE_PC_SAFER_OPEN) && decide (currentPC ≤ targetPC)) ||
    (decide (DEFAULT_VALVE_PC_SAFER_OPEN ≤ targetPC) && decide (targetPC ≤ currentPC))

/-- Precision threshold above which proportional mode is impossible, embedded
from CalibrationParameters::max_usuable_precision (sic). -/
def max_usuable_precision : ℕ := 15

/-- Precision value used to mark an unusable calibration, embedded from
CalibrationParameters::bad_precision. -/
def bad_precision : ℕ := 100

/-- Calibration parameters of the proportional driver, embedded from
CurrentSenseValveMotorDirect::CalibrationParameters. -/
structure CalibrationParameters : Type where
  ticksFromOpenToClosed : ℕ
  ticksFromClosedToOpen : ℕ
  approxPrecisionPC : ℕ
  tfotcSmall : ℕ
  tfctoSmall : ℕ
deriving DecidableEq, Repr

/-- Default-constructed calibration parameters: tick counts zero and
approxPrecisionPC = bad_precision, per the in-class initialisers. -/
def CalibrationParameters.initial : CalibrationParameters :=
  { ticksFromOpenToClosed := 0
    ticksFromClosedToOpen := 0
    approxPrecisionPC := bad_precision
    tfotcSmall := 0
    tfctoSmall := 0 }

/-- cannotRunProportional(), embedded from
CalibrationParameters::cannotRunProportional. -/
def CalibrationParameters.cannotRunProportional (cp : CalibrationParameters) : Bool :=
  decide (max_usuable_precision < cp.approxPrecisionPC)

/-- Modelled from the spec: CalibrationParameters::computePosition (its
implementation file is not under src; only the declaration is).  Reconciles
any reverse ticks into the forward tick count (fold-back) scaled by the
calibrated open-to-closed / closed-to-open ratio, then converts the net
forward ticks into a percentage open.  Returns the reconciled
(ticksFromOpen, ticksReverse) pair together with the computed position. -/
def CalibrationParameters.computePosition (cp : CalibrationParameters)
    (ticksFromOpen ticksReverse : ℕ) : ℕ × ℕ × ℕ :=
  let foldBack := OTV0P2BASE.fnmin ticksFromOpen
    (ticksReverse * cp.tfotcSmall / OTV0P2BASE.fnmax cp.tfctoSmall 1)
  let newTicksFromOpen := ticksFromOpen - foldBack
  let pc :=
    if cp.ticksFromOpenToClosed = 0 then 0
    else 100 - OTV0P2BASE.fnmin 100 (100 * newTicksFromOpen / cp.ticksFromOpenToClosed)
  (newTicksFromOpen, 0, pc)

/-- Mutable state of the proportional driver CurrentSenseValveMotorDirect
(the fields it adds to the binary-only base, plus the base percentage). -/
structure CSVMDState : Type where
  state : driverState
  perState : PerState
  endStopDetected : Bool
  currentPC : ℕ
  targetPC : ℕ
  cp : CalibrationParameters
  needsRecalibrating : Bool
  ticksFromOpen : ℕ
  ticksReverse : ℕ
deriving DecidableEq, Repr

/-- Freshly constructed proportional driver: binary-only base initialisation
plus cp default-constructed and needsRecalibrating = true, per the in-class
initialisers. -/
def CSVMDState.initial : CSVMDState :=
  { state := driverState.init
    perState := PerState.cleared
    endStopDetected := false
    currentPC := 100
    targetPC := DEFAULT_VALVE_PC_SAFER_OPEN - 1
    cp := CalibrationParameters.initial
    needsRecalibrating := true
    ticksFromOpen := 0
    ticksReverse := 0 }

/-- resetCurrentPC(hitEndstopOpen), embedded from
CurrentSenseValveMotorDirectBinaryOnly::resetCurrentPC. -/
def resetCurrentPC (hitEndstopOpen : Bool) (s : CSVMDState) : CSVMDState :=
  { s with currentPC := if hitEndstopOpen then 100 else 0 }

/-- hitEndstop(hitEndstopOpen), embedded from the proportional override
CurrentSenseValveMotorDirect::hitEndstop: reset the percentage to the
end-stop value and reset the positional tick records. -/
def hitEndstop (hitEndstopOpen : Bool) (s : CSVMDState) : CSVMDState :=
  let s0 := resetCurrentPC hitEndstopOpen s
  { s0 with
    ticksReverse := 0
    ticksFromOpen := if hitEndstopOpen then 0 else s.cp.ticksFromOpenToClosed }

/-- recomputeIntermediatePosition(), embedded from the proportional override
CurrentSenseValveMotorDirect::recomputeIntermediatePosition: when calibration
is in place, set currentPC to the dead-reckoned computePosition result
constrained into [1,99]; otherwise do nothing. -/
def recomputeIntermediatePosition (s : CSVMDState) : CSVMDState :=
  if s.needsRecalibrating then s
  else
    let r := s.cp.computePosition s.ticksFromOpen s.ticksReverse
    { s with
      ticksFromOpen := r.1
      ticksReverse := r.2.1
      currentPC := OTV0P2BASE.fnconstrain r.2.2 1 99 }

/-- inNonProportionalMode(), embedded from
CurrentSenseValveMotorDirect::inNonProportionalMode. -/
def inNonProportionalMode (s : CSVMDState) : Bool :=
  s.needsRecalibrating || s.cp.cannotRunProportional

/-!
The temperature-to-target control algorithm (ValveControlState /
ModelledRadValveState).  Its implementation file is not under src — only its
unit tests are — so the whole component below is modelled from the spec
(sections 3, 4.1 and 8): rolling raw-temperature history, the filtering
decision, draught detection, gross-error bang-bang, the proportional zone
with anti-hunt lockouts, BAKE override, fast-response opening, lingering
close, the no-hover-while-calling-for-heat design rule, and the cumulative
movement counter.  The spec leaves the tuning constants configurable;
representative values are fixed here.
-/

/-- Modelled from the spec: length of the rolling buffer of raw temperature
samples (the filter window). -/
def filterLength : ℕ := 16

/-- Modelled from the spec: ticks over which a 0.5 C change counts as fast. -/
def MIN_TICKS_0p5C_DELTA : ℕ := 5

/-- Modelled from the spec: ticks over which a 1 C change counts as fast. -/
def MIN_TICKS_1C_DELTA : ℕ := 10

/-- Modelled from the spec: maximum temperature jump (C16) tolerated when
dropping back from filtered to raw values. -/
def MAX_TEMP_JUMP_C16 : ℕ := 24

/-- Modelled from the spec: maximum per-tick temperature gradient (C16)
tolerated over the whole filter window without engaging filtering. -/
def MAX_TEMP_GRAD_C16_PER_TICK : ℕ := 2

/-- Modelled from the spec: normal (non-glacial) slew rate in
percentage points per tick. -/
def TRV_SLEW_PC_PER_TICK : ℕ := 5

/-- Modelled from the spec: temperature drop (C16) over the short window
regarded as a draught event. -/
def DRAUGHT_DROP_THRESHOLD_C16 : ℕ := 10

/-- Modelled from the spec: length in ticks of the short window used by the
draught detector. -/
def draughtWindowTicks : ℕ := 4

/-- Modelled from the spec: ModelledRadValveInputState, the value-type
snapshot of temperature/context inputs rebuilt by the caller each tick.
Temperatures are integer degrees C (target) and sixteenths of a degree
(reference); flags as listed in section 3. -/
structure ModelledRadValveInputState : Type where
  targetTempC : ℤ
  refTempC16 : ℤ
  widenDeadband : Bool
  fastResponseRequired : Bool
  hasEcoBias : Bool
  glacial : Bool
  inBakeMode : Bool
  minPCReallyOpen : ℕ
deriving DecidableEq, Repr

/-- Modelled from the spec: ModelledRadValveState, the per-valve control
state: cumulative movement counter, the two anti-hunt countdowns (dontTurnup
is armed while valveTurndownCountdownM is nonzero, dontTurndown while
valveTurnupCountdownM is nonzero), the filtering hold countdown, the
first-tick initialisation flag, and the rolling raw-temperature history
(most recent first). -/
structure ModelledRadValveState : Type where
  cumulativeMovementPC : ℕ
  valveTurndownCountdownM : ℕ
  valveTurnupCountdownM : ℕ
  isFiltering : ℕ
  initialised : Bool
  prevRawTempC16 : List ℤ
deriving DecidableEq, Repr

/-- Modelled from the spec: dontTurnup() — turning the valve up is refused
while the turn-down cooldown is still counting down. -/
def ModelledRadValveState.dontTurnup (s : ModelledRadValveState) : Bool :=
  decide (s.valveTurndownCountdownM ≠ 0)

/-- Modelled from the spec: dontTurndown() — turning the valve down is
refused while the turn-up cooldown is still counting down. -/
def ModelledRadValveState.dontTurndown (s : ModelledRadValveState) : Bool :=
  decide (s.valveTurnupCountdownM ≠ 0)

/-- Modelled from the spec: a freshly constructed control state — counters
at zero, filtering off, history not yet initialised. -/
def ModelledRadValveState.initial : ModelledRadValveState :=
  { cumulativeMovementPC := 0
    valveTurndownCountdownM := 0
    valveTurnupCountdownM := 0
    isFiltering := 0
    initialised := false
    prevRawTempC16 := List.replicate filterLength 0 }

/-- Modelled from the spec: the raw reference temperature (C16) taken from
the input snapshot each tick. -/
def computeRawTemp16 (is : ModelledRadValveInputState) : ℤ := is.refTempC16

/-- Modelled from the spec: smoothed recent temperature — the mean of the
rolling history. -/
def smoothedOf (hist : List ℤ) : ℤ := hist.sum / (filterLength : ℤ)

/-- Modelled from the spec: the rate-of-change test driving the filtering
decision — recent deltas over the short, medium and full windows compared
against the fast-change thresholds. -/
def bigDelta (hist : List ℤ) : Bool :=
  decide (8 < (hist.headD 0 - hist.getD MIN_TICKS_0p5C_DELTA 0).natAbs) ||
    decide (16 < (hist.headD 0 - hist.getD MIN_TICKS_1C_DELTA 0).natAbs) ||
    decide ((filterLength - 1) * MAX_TEMP_GRAD_C16_PER_TICK
      < (hist.headD 0 - hist.getD (filterLength - 1) 0).natAbs)

/-- Modelled from the spec: next value of the filtering hold countdown.
While engaged, filtering holds for a minimum time before the exit test; it
exits once raw is close enough to the smoothed value; it (re)engages when
recent rate of change exceeds a fast-change threshold. -/
def nextFiltering (cur : ℕ) (hist : List ℤ) (raw : ℤ) : ℕ :=
  let cur2 :=
    if 1 < cur then cur - 1
    else if cur = 1 then
      (if (smoothedOf hist - raw).natAbs ≤ MAX_TEMP_JUMP_C16 then 0 else cur)
    else cur
  if cur2 = 0 then (if bigDelta hist then 4 * filterLength else 0) else cur2

/-- Modelled from the spec: draught detection — eco-bias set, fast response
not requested, the reference temperature dropping sharply over the short
window while still below target. -/
def draughtActive (hist : List ℤ) (is : ModelledRadValveInputState)
    (adjC16 : ℤ) : Bool :=
  is.hasEcoBias && !is.fastResponseRequired &&
    decide ((DRAUGHT_DROP_THRESHOLD_C16 : ℤ)
      < hist.getD draughtWindowTicks 0 - hist.headD 0) &&
    decide (adjC16 < 16 * is.targetTempC)

/-- Modelled from the spec: half-width (C16) of the proportional range,
widened when widenDeadband is set. -/
def proportionalRangeC16 (is : ModelledRadValveInputState) : ℤ :=
  if is.widenDeadband then 32 else 16

/-- Modelled from the spec: the setpoint percentage the proportional zone
moves toward.  Beyond the proportional range this is the bang-bang extreme
(0 or 100); within it a linear modulation, snapped up to 100 whenever it
would land at or above the call-for-heat threshold so that the controller
can never settle hovering below 100 while still calling for heat. -/
def computeSetpointPC (is : ModelledRadValveInputState) (adjC16 : ℤ) : ℕ :=
  let off : ℤ := adjC16 - (16 * is.targetTempC + 8)
  let range := proportionalRangeC16 is
  if off ≤ -range then 100
  else if range ≤ off then 0
  else
    let raw := ((range - off) * 50 / range).toNat
    if DEFAULT_VALVE_PC_SAFER_OPEN ≤ raw then 100 else raw

/-- Modelled from the spec: slew rate in percentage points per tick — one
point per tick in glacial mode. -/
def slewRate (is : ModelledRadValveInputState) : ℕ :=
  if is.glacial then 1 else TRV_SLEW_PC_PER_TICK

/-- Modelled from the spec: true when the reference temperature is several
degrees (5 C here) below target — the open-fast-from-cold condition. -/
def wellBelowTarget (is : ModelledRadValveInputState) (adjC16 : ℤ) : Bool :=
  decide (adjC16 ≤ 16 * is.targetTempC - 80)

/-- Modelled from the spec: one opening step toward setpoint sp — when a
fast response is wanted (requested, or well below target) and the valve is
below moderately open with a full-open setpoint, jump straight to moderately
open; otherwise slew up, capped at the setpoint. -/
def upStep (is : ModelledRadValveInputState) (adjC16 : ℤ) (pc sp : ℕ) : ℕ :=
  if ((is.fastResponseRequired || wellBelowTarget is adjC16) &&
      decide (sp = 100) && decide (pc < DEFAULT_VALVE_PC_MODERATELY_OPEN)) then
    DEFAULT_VALVE_PC_MODERATELY_OPEN
  else min sp (pc + slewRate is)

/-- Modelled from the spec: the lingering-close threshold, one below the
minimum-really-open percentage for this valve. -/
def lingerThreshold (is : ModelledRadValveInputState) : ℕ :=
  is.minPCReallyOpen - 1

/-- Modelled from the spec: one closing step toward setpoint sp — slew down
while above the lingering threshold (stopping there), then descend exactly
one percentage point per tick through the lingering zone,
never undershooting the setpoint. -/
def downStep (is : ModelledRadValveInputState) (pc sp : ℕ) : ℕ :=
  if lingerThreshold is < pc then
    max sp (max (lingerThreshold is) (pc - slewRate is))
  else max sp (pc - 1)

/-- Modelled from the spec: the new valve percentage for one tick.  BAKE
unconditionally forces 100; a detected draught forces the percentage below
the call-for-heat threshold; otherwise the percentage moves one step toward
the computed setpoint, refusing to turn up while dontTurnup is armed and to
turn down while dontTurndown is armed. -/
def computeNewValvePC (dUp dDown : Bool) (hist : List ℤ)
    (is : ModelledRadValveInputState) (adjC16 : ℤ) (pc : ℕ) : ℕ :=
  if is.inBakeMode then 100
  else if draughtActive hist is adjC16 then
    min pc (DEFAULT_VALVE_PC_SAFER_OPEN - 1)
  else
    let sp := computeSetpointPC is adjC16
    if pc < sp then (if dUp then pc else upStep is adjC16 pc sp)
    else if sp < pc then (if dDown then pc else downStep is pc sp)
    else pc

/-- Modelled from the spec: tick(valvePCOpenInOut, inputs) — one invocation
of the control algorithm.  Backfills the temperature history on the first
tick, shifts in the latest raw sample, updates the filtering decision,
computes the new percentage, accumulates cumulativeMovementPC by the
absolute movement, and arms/decrements the two anti-hunt countdowns
(closing arms the reopen delay; opening — or BAKE, unconditionally —
arms the reclose delay).  Returns the new percentage with the new state.
No backing valve is modelled (the claims below concern the
no-backing-valve configuration). -/
def ModelledRadValveState.tick (s : ModelledRadValveState) (pc : ℕ)
    (is : ModelledRadValveInputState) : ℕ × ModelledRadValveState :=
  let raw := computeRawTemp16 is
  let hist := raw ::
    (if s.initialised then s.prevRawTempC16
     else List.replicate filterLength raw).dropLast
  let filt := nextFiltering s.isFiltering hist raw
  let adj : ℤ := if 0 < filt then smoothedOf hist else raw
  let newPC := computeNewValvePC s.dontTurnup s.dontTurndown hist is adj pc
  (newPC,
    { cumulativeMovementPC :=
        s.cumulativeMovementPC + OTV0P2BASE.fnabsdiff newPC pc
      valveTurndownCountdownM :=
        if newPC < pc then DEFAULT_ANTISEEK_VALVE_REOPEN_DELAY_M
        else s.valveTurndownCountdownM - 1
      valveTurnupCountdownM :=
        if is.inBakeMode || decide (pc < newPC) then
          DEFAULT_ANTISEEK_VALVE_RECLOSE_DELAY_M
        else s.valveTurnupCountdownM - 1
      isFiltering := filt
      initialised := true
      prevRawTempC16 := hist })

/-- Modelled from the spec: n ticks of the control algorithm with the same
input snapshot held steady, threading the percentage and the state. -/
def tickRun (is : ModelledRadValveInputState) :
    ℕ → ℕ × ModelledRadValveState → ℕ × ModelledRadValveState
  | 0, p => p
  | n + 1, p => tickRun is n (p.2.tick p.1 is)

/-- The setpoint the controller chases once the temperature history is flat
at the current reference temperature (no filtering, no draught). -/
def flatSetpoint (is : ModelledRadValveInputState) : ℕ :=
  computeSetpointPC is (computeRawTemp16 is)

/-- A control state whose temperature history is flat at the current
reference temperature (or not yet initialised, in which case the first tick
backfills it) with filtering off — the steady-inputs regime of the claims. -/
def FlatFor (is : ModelledRadValveInputState)
    (s : ModelledRadValveState) : Prop :=
  s.isFiltering = 0 ∧
    (s.initialised = false ∨
      s.prevRawTempC16 = List.replicate filterLength (computeRawTemp16 is))

/-- Steady-run invariant for the no-hover analysis: flat history, percentage
in range, and the anti-hunt countdown that could block movement toward the
flat setpoint not armed. -/
def SteadyInv (is : ModelledRadValveInputState)
    (p : ℕ × ModelledRadValveState) : Prop :=
  FlatFor is p.2 ∧ p.1 ≤ 100 ∧
    (p.1 < flatSetpoint is → p.2.valveTurndownCountdownM = 0) ∧
    (flatSetpoint is < p.1 → p.2.valveTurnupCountdownM = 0)

/-- Scenario input mirroring the UpDownDelay unit test: ambient 18 C with a
target of 14 C, well below ambient, no special flags. -/
def inputTarget14 : ModelledRadValveInputState :=
  { targetTempC := 14
    refTempC16 := 288
    widenDeadband := false
    fastResponseRequired := false
    hasEcoBias := false
    glacial := false
    inBakeMode := false
    minPCReallyOpen := DEFAULT_VALVE_PC_MIN_REALLY_OPEN }

/-- Scenario input: ambient 18 C with a target of 32 C, far above ambient. -/
def inputTarget32 : ModelledRadValveInputState :=
  { inputTarget14 with targetTempC := 32 }

/-- Scenario input mirroring the cumulativeMovementPC unit test: ambient
18 C, target 25 C. -/
def inputTarget25 : ModelledRadValveInputState :=
  { inputTarget14 with targetTempC := 25 }

/-- Scenario input mirroring the cumulativeMovementPC unit test: ambient
18 C, target 10 C. -/
def inputTarget10 : ModelledRadValveInputState :=
  { inputTarget14 with targetTempC := 10 }

/-- Scenario input mirroring the cumulativeMovementPC unit test: ambient
18 C, target 26 C. -/
def inputTarget26 : ModelledRadValveInputState :=
  { inputTarget14 with targetTempC := 26 }

end OTRadValve

open OTRadValve

/-- Claim C1: for all percentages targetPC and currentPC in [0,100],
closeEnoughToTarget(targetPC, currentPC) returns true exactly when
targetPC = currentPC, or the absolute difference is at most
absTolerancePC (11), or targetPC is strictly below
DEFAULT_VALVE_PC_SAFER_OPEN and currentPC ≤ targetPC, or targetPC is
at/above DEFAULT_VALVE_PC_SAFER_OPEN and currentPC ≥ targetPC. -/
theorem closeEnoughToTarget_spec (t c : ℕ) (ht : t ≤ 100) (hc : c ≤ 100) :
    closeEnoughToTarget t c = true ↔
      (t = c ∨ ((t : ℤ) - (c : ℤ)).natAbs ≤ absTolerancePC ∨
        (t < DEFAULT_VALVE_PC_SAFER_OPEN ∧ c ≤ t) ∨
        (DEFAULT_VALVE_PC_SAFER_OPEN ≤ t ∧ t ≤ c)) := by
  simp only [closeEnoughToTarget, OTV0P2BASE.fnabsdiff, absTolerancePC,
    DEFAULT_VALVE_PC_SAFER_OPEN, Bool.or_eq_true, Bool.and_eq_true,
    decide_eq_true_eq]
  split_ifs <;> omega

/-- Witness for C1 at the concrete input (40, 45). -/
theorem closeEnoughToTarget_spec_witness :
    closeEnoughToTarget 40 45 = true ↔
      (40 = 45 ∨ (((40 : ℕ) : ℤ) - ((45 : ℕ) : ℤ)).natAbs ≤ absTolerancePC ∨
        (40 < DEFAULT_VALVE_PC_SAFER_OPEN ∧ 45 ≤ 40) ∨
        (DEFAULT_VALVE_PC_SAFER_OPEN ≤ 40 ∧ 40 ≤ 45)) :=
  closeEnoughToTarget_spec 40 45 (by norm_num) (by norm_num)

/-- Claim C7: inNonProportionalMode() is true exactly when
needsRecalibrating is set or cannotRunProportional() holds;
cannotRunProportional() holds exactly when approxPrecisionPC is strictly
greater than max_usuable_precision (15); and a freshly constructed driver
(needsRecalibrating true, approxPrecisionPC = bad_precision = 100) is in
non-proportional mode. -/
theorem inNonProportionalMode_spec :
    (∀ s : CSVMDState, inNonProportionalMode s = true ↔
      (s.needsRecalibrating = true ∨ s.cp.cannotRunProportional = true)) ∧
    (∀ cp : CalibrationParameters, cp.cannotRunProportional = true ↔
      max_usuable_precision < cp.approxPrecisionPC) ∧
    max_usuable_precision = 15 ∧
    CSVMDState.initial.needsRecalibrating = true ∧
    CSVMDState.initial.cp.approxPrecisionPC = bad_precision ∧
    bad_precision = 100 ∧
    inNonProportionalMode CSVMDState.initial = true := by
  refine ⟨fun s => ?_, fun cp => ?_, rfl, rfl, rfl, rfl, rfl⟩
  · simp [inNonProportionalMode]
  · simp [CalibrationParameters.cannotRunProportional]

/-- Claim C8: setTargetPC(newPC) silently coerces the value into range:
afterwards targetPC = min(newPC, 100), and nothing else of the driver
state is touched (the call is total: it never fails or rejects). -/
theorem setTargetPC_spec (s : CSVMDBinaryState) (newPC : ℕ)
    (h : newPC ≤ 255) :
    (setTargetPC newPC s).targetPC = min newPC 100 ∧
    (setTargetPC newPC s).state = s.state ∧
    (setTargetPC newPC s).currentPC = s.currentPC ∧
    (setTargetPC newPC s).perState = s.perState ∧
    (setTargetPC newPC s).endStopDetected = s.endStopDetected := by
  refine ⟨?_, rfl, rfl, rfl, rfl⟩
  show OTV0P2BASE.fnmin newPC 100 = min newPC 100
  unfold OTV0P2BASE.fnmin
  split_ifs <;> omega

/-- Witness for C8 at the out-of-range concrete input 250. -/
theorem setTargetPC_spec_witness :
    (setTargetPC 250 CSVMDBinaryState.initial).targetPC = min 250 100 ∧
    (setTargetPC 250 CSVMDBinaryState.initial).state =
      CSVMDBinaryState.initial.state ∧
    (setTargetPC 250 CSVMDBinaryState.initial).currentPC =
      CSVMDBinaryState.initial.currentPC ∧
    (setTargetPC 250 CSVMDBinaryState.initial).perState =
      CSVMDBinaryState.initial.perState ∧
    (setTargetPC 250 CSVMDBinaryState.initial).endStopDetected =
      CSVMDBinaryState.initial.endStopDetected :=
  setTargetPC_spec CSVMDBinaryState.initial 250 (by norm_num)

/-- Claim C9: every state change performed via changeState(newState) sets
the new major state and zeroes the entire per-state scratch union, so each
major state begins with all its microstate (tick counts, end-stop hit
counts, calibration sub-state, valveFitted flag) zero; the non-scratch
fields are untouched. -/
theorem changeState_spec (s : CSVMDBinaryState) (ns : driverState) :
    (changeState ns s).state = ns ∧
    (changeState ns s).perState = PerState.cleared ∧
    (changeState ns s).perState.initWaiting_ticksWaited = 0 ∧
    (changeState ns s).perState.calibrating_ticksFromOpenToClosed = 0 ∧
    (changeState ns s).perState.calibrating_ticksFromClosedToOpen = 0 ∧
    (changeState ns s).perState.calibrating_calibState = 0 ∧
    (changeState ns s).perState.calibrating_wallclock2sTicks = 0 ∧
    (changeState ns s).perState.calibrating_endStopHitCount = 0 ∧
    (changeState ns s).perState.withdrawing_wallclock2sTicks = 0 ∧
    (changeState ns s).perState.withdrawing_endStopHitCount = 0 ∧
    (changeState ns s).perState.withdrawn_valveFitted = false ∧
    (changeState ns s).perState.normal_endStopHitCount = 0 ∧
    (changeState ns s).currentPC = s.currentPC ∧
    (changeState ns s).targetPC = s.targetPC ∧
    (changeState ns s).endStopDetected = s.endStopDetected :=
  ⟨rfl, rfl, rfl, rfl, rfl, rfl, rfl, rfl, rfl, rfl, rfl, rfl, rfl, rfl, rfl⟩

/-- Claim C10: isControlledValveReallyOpen() returns true exactly when the
driver state is valveNormal and currentPC ≥ getMinPercentOpen(); in every
other state it returns false. -/
theorem isControlledValveReallyOpen_spec :
    (∀ s : CSVMDBinaryState, isControlledValveReallyOpen s = true ↔
      (s.state = driverState.valveNormal ∧ getMinPercentOpen ≤ s.currentPC)) ∧
    (∀ s : CSVMDBinaryState, s.state ≠ driverState.valveNormal →
      isControlledValveReallyOpen s = false) := by
  constructor
  · intro s
    simp [isControlledValveReallyOpen, isInNormalRunState, and_comm]
  · intro s h
    simp [isControlledValveReallyOpen, isInNormalRunState, h]

/-- Witness for C10 at a concrete error-state driver. -/
theorem isControlledValveReallyOpen_spec_witness :
    isControlledValveReallyOpen
      { CSVMDBinaryState.initial with state := driverState.valveError } =
      false :=
  isControlledValveReallyOpen_spec.2
    { CSVMDBinaryState.initial with state := driverState.valveError }
    (by decide)

/-- Claim C6: when calibration is in place (needsRecalibrating false),
recomputeIntermediatePosition() sets currentPC to the dead-reckoned
computePosition result clamped into [1,99] — so never to 0 or 100 —
while hitEndstop() is what sets currentPC to exactly 0 or exactly 100
after an end-stop hit. -/
theorem recomputeIntermediatePosition_spec (s : CSVMDState)
    (h : s.needsRecalibrating = false) :
    ((recomputeIntermediatePosition s).currentPC =
        OTV0P2BASE.fnconstrain
          (s.cp.computePosition s.ticksFromOpen s.ticksReverse).2.2 1 99 ∧
      1 ≤ (recomputeIntermediatePosition s).currentPC ∧
      (recomputeIntermediatePosition s).currentPC ≤ 99) ∧
    (∀ (s2 : CSVMDState) (b : Bool),
      (hitEndstop b s2).currentPC = if b then 100 else 0) := by
  constructor
  · have hpc : (recomputeIntermediatePosition s).currentPC =
        OTV0P2BASE.fnconstrain
          (s.cp.computePosition s.ticksFromOpen s.ticksReverse).2.2 1 99 := by
      unfold recomputeIntermediatePosition
      rw [if_neg (by simp [h])]
    refine ⟨hpc, ?_, ?_⟩ <;>
      (rw [hpc]; unfold OTV0P2BASE.fnconstrain; split_ifs <;> omega)
  · intro s2 b
    cases b <;> rfl

/-- Witness for C6 at a concrete calibrated driver state. -/
theorem recomputeIntermediatePosition_spec_witness :
    (let s : CSVMDState := { CSVMDState.initial with
      needsRecalibrating := false, ticksFromOpen := 120, ticksReverse := 0,
      cp := { ticksFromOpenToClosed := 400, ticksFromClosedToOpen := 380,
              approxPrecisionPC := 5, tfotcSmall := 20, tfctoSmall := 19 } }
     ((recomputeIntermediatePosition s).currentPC =
        OTV0P2BASE.fnconstrain
          (s.cp.computePosition s.ticksFromOpen s.ticksReverse).2.2 1 99 ∧
      1 ≤ (recomputeIntermediatePosition s).currentPC ∧
      (recomputeIntermediatePosition s).currentPC ≤ 99) ∧
    (∀ (s2 : CSVMDState) (b : Bool),
      (hitEndstop b s2).currentPC = if b then 100 else 0)) :=
  recomputeIntermediatePosition_spec
    { CSVMDState.initial with
      needsRecalibrating := false, ticksFromOpen := 120, ticksReverse := 0,
      cp := { ticksFromOpenToClosed := 400, ticksFromClosedToOpen := 380,
              approxPrecisionPC := 5, tfotcSmall := 20, tfctoSmall := 19 } }
    rfl

/-- Shifting the flat sample into a flat history leaves it flat. -/
theorem hist_flat (r : ℤ) :
    (r :: (List.replicate filterLength r).dropLast) =
      List.replicate filterLength r := rfl

/-- Head and probe positions of a flat history all read the flat value. -/
theorem flat_ops (r : ℤ) :
    (List.replicate filterLength r).headD 0 = r ∧
    (List.replicate filterLength r).getD MIN_TICKS_0p5C_DELTA 0 = r ∧
    (List.replicate filterLength r).getD MIN_TICKS_1C_DELTA 0 = r ∧
    (List.replicate filterLength r).getD (filterLength - 1) 0 = r ∧
    (List.replicate filterLength r).getD draughtWindowTicks 0 = r :=
  ⟨rfl, rfl, rfl, rfl, rfl⟩

/-- A flat history shows no fast rate of change. -/
theorem bigDelta_flat (r : ℤ) :
    bigDelta (List.replicate filterLength r) = false := by
  have h := flat_ops r
  unfold bigDelta
  rw [h.1, h.2.1, h.2.2.1, h.2.2.2.1]
  simp

/-- With filtering off and a flat history, filtering stays off. -/
theorem nextFiltering_flat (r : ℤ) :
    nextFiltering 0 (List.replicate filterLength r) r = 0 := by
  simp [nextFiltering, bigDelta_flat]

/-- A flat history never triggers the draught detector. -/
theorem draughtActive_flat (is : ModelledRadValveInputState) (r adj : ℤ) :
    draughtActive (List.replicate filterLength r) is adj = false := by
  have h := flat_ops r
  unfold draughtActive
  rw [h.1, h.2.2.2.2]
  simp

/-- Definitional projection: each tick adds exactly the absolute movement of
that tick to the cumulative movement counter. -/
theorem tick_cumulative (s : ModelledRadValveState) (pc : ℕ)
    (is : ModelledRadValveInputState) :
    (s.tick pc is).2.cumulativeMovementPC =
      s.cumulativeMovementPC + OTV0P2BASE.fnabsdiff (s.tick pc is).1 pc := rfl

/-- Definitional projection: the turn-down countdown is re-armed by a
closing movement and otherwise decremented. -/
theorem tick_turndownCd (s : ModelledRadValveState) (pc : ℕ)
    (is : ModelledRadValveInputState) :
    (s.tick pc is).2.valveTurndownCountdownM =
      if (s.tick pc is).1 < pc then DEFAULT_ANTISEEK_VALVE_REOPEN_DELAY_M
      else s.valveTurndownCountdownM - 1 := rfl

/-- Definitional projection: the turn-up countdown is re-armed by an opening
movement or by BAKE, and otherwise decremented. -/
theorem tick_turnupCd (s : ModelledRadValveState) (pc : ℕ)
    (is : ModelledRadValveInputState) :
    (s.tick pc is).2.valveTurnupCountdownM =
      if is.inBakeMode || decide (pc < (s.tick pc is).1) then
        DEFAULT_ANTISEEK_VALVE_RECLOSE_DELAY_M
      else s.valveTurnupCountdownM - 1 := rfl

/-- In the steady (flat-history) regime a tick reduces to the pure movement
computation at the flat reference temperature, and the resulting state is
flat again. -/
theorem tick_flat (is : ModelledRadValveInputState)
    (s : ModelledRadValveState) (pc : ℕ) (hf : FlatFor is s) :
    (s.tick pc is).1 = computeNewValvePC s.dontTurnup s.dontTurndown
      (List.replicate filterLength (computeRawTemp16 is)) is
      (computeRawTemp16 is) pc ∧
    (s.tick pc is).2.isFiltering = 0 ∧
    (s.tick pc is).2.prevRawTempC16 =
      List.replicate filterLength (computeRawTemp16 is) := by
  obtain ⟨hfil, hh⟩ := hf
  have hh2 : (if s.initialised then s.prevRawTempC16
      else List.replicate filterLength (computeRawTemp16 is)) =
      List.replicate filterLength (computeRawTemp16 is) := by
    rcases hh with h | h
    · rw [h]
      simp
    · split_ifs with hi
      · exact h
      · rfl
  simp only [ModelledRadValveState.tick]
  rw [hh2, hist_flat, hfil, nextFiltering_flat]
  simp

/-- Flatness is preserved by a tick in the steady regime. -/
theorem tick_flat_flat (is : ModelledRadValveInputState)
    (s : ModelledRadValveState) (pc : ℕ) (hf : FlatFor is s) :
    FlatFor is (s.tick pc is).2 :=
  ⟨(tick_flat is s pc hf).2.1, Or.inr (tick_flat is s pc hf).2.2⟩

/-- With BAKE off and a flat history, the movement computation is the pure
anti-hunt-guarded step toward the flat setpoint. -/
theorem computeNewValvePC_flat (dUp dDown : Bool)
    (is : ModelledRadValveInputState) (pc : ℕ)
    (hb : is.inBakeMode = false) :
    computeNewValvePC dUp dDown
      (List.replicate filterLength (computeRawTemp16 is)) is
      (computeRawTemp16 is) pc =
      (if pc < flatSetpoint is then
        (if dUp then pc else upStep is (computeRawTemp16 is) pc (flatSetpoint is))
      else if flatSetpoint is < pc then
        (if dDown then pc else downStep is pc (flatSetpoint is))
      else pc) := by
  unfold computeNewValvePC flatSetpoint
  rw [hb, draughtActive_flat]
  simp

/-- The setpoint always avoids the hover band: it is full open or strictly
below the call-for-heat threshold; and it never exceeds 100. -/
theorem computeSetpointPC_goal (is : ModelledRadValveInputState) (adj : ℤ) :
    (computeSetpointPC is adj = 100 ∨
      computeSetpointPC is adj < DEFAULT_VALVE_PC_SAFER_OPEN) ∧
    computeSetpointPC is adj ≤ 100 := by
  simp only [computeSetpointPC, DEFAULT_VALVE_PC_SAFER_OPEN]
  split_ifs <;> simp_all <;> omega

/-- An opening step makes strict progress and never overshoots the
setpoint. -/
theorem upStep_bounds (is : ModelledRadValveInputState) (adj : ℤ)
    (pc sp : ℕ) (h1 : pc < sp) (h2 : sp ≤ 100) :
    pc < upStep is adj pc sp ∧ upStep is adj pc sp ≤ sp := by
  unfold upStep
  split_ifs with hc
  · simp only [Bool.and_eq_true, decide_eq_true_eq] at hc
    obtain ⟨⟨hfast, hspEq⟩, hmod⟩ := hc
    refine ⟨hmod, ?_⟩
    rw [hspEq]
    norm_num [DEFAULT_VALVE_PC_MODERATELY_OPEN]
  · unfold slewRate TRV_SLEW_PC_PER_TICK
    split_ifs <;> omega

/-- A closing step makes strict progress and never undershoots the
setpoint. -/
theorem downStep_bounds (is : ModelledRadValveInputState)
    (pc sp : ℕ) (h1 : sp < pc) :
    sp ≤ downStep is pc sp ∧ downStep is pc sp < pc := by
  unfold downStep lingerThreshold slewRate TRV_SLEW_PC_PER_TICK
  split_ifs <;> constructor <;> omega

/-- One steady tick with BAKE off preserves the steady-run invariant and
strictly shrinks the distance to the flat setpoint (until it is zero). -/
theorem steady_step (is : ModelledRadValveInputState)
    (hb : is.inBakeMode = false) (p : ℕ × ModelledRadValveState)
    (hp : SteadyInv is p) :
    SteadyInv is (p.2.tick p.1 is) ∧
      Nat.dist (p.2.tick p.1 is).1 (flatSetpoint is) ≤
        Nat.dist p.1 (flatSetpoint is) - 1 := by
  obtain ⟨hflat, hpc, hcd1, hcd2⟩ := hp
  have htf := tick_flat is p.2 p.1 hflat
  have hfst : (p.2.tick p.1 is).1 =
      (if p.1 < flatSetpoint is then
        (if p.2.dontTurnup then p.1
         else upStep is (computeRawTemp16 is) p.1 (flatSetpoint is))
      else if flatSetpoint is < p.1 then
        (if p.2.dontTurndown then p.1 else downStep is p.1 (flatSetpoint is))
      else p.1) := by
    rw [htf.1, computeNewValvePC_flat _ _ is p.1 hb]
  have hsp100 : flatSetpoint is ≤ 100 :=
    (computeSetpointPC_goal is (computeRawTemp16 is)).2
  have hflat2 : FlatFor is (p.2.tick p.1 is).2 := ⟨htf.2.1, Or.inr htf.2.2⟩
  have hnd := tick_turndownCd p.2 p.1 is
  have hnu := tick_turnupCd p.2 p.1 is
  rcases lt_trichotomy p.1 (flatSetpoint is) with h | h | h
  · have hdUp : p.2.dontTurnup = false := by
      simp [ModelledRadValveState.dontTurnup, hcd1 h]
    rw [if_pos h, hdUp] at hfst
    simp only [Bool.false_eq_true, if_false] at hfst
    have hbnd := upStep_bounds is (computeRawTemp16 is) p.1 (flatSetpoint is)
      h hsp100
    rw [← hfst] at hbnd
    rw [if_neg (by omega)] at hnd
    refine ⟨⟨hflat2, by omega, ?_, ?_⟩, ?_⟩
    · intro _
      rw [hnd, hcd1 h]
    · intro hlt
      omega
    · simp only [Nat.dist]
      omega
  · rw [if_neg (by omega), if_neg (by omega)] at hfst
    rw [if_neg (by omega)] at hnd
    refine ⟨⟨hflat2, by omega, ?_, ?_⟩, ?_⟩
    · intro hlt
      omega
    · intro hlt
      omega
    · simp only [Nat.dist]
      omega
  · have hdDown : p.2.dontTurndown = false := by
      simp [ModelledRadValveState.dontTurndown, hcd2 h]
    rw [if_neg (by omega), if_pos h, hdDown] at hfst
    simp only [Bool.false_eq_true, if_false] at hfst
    have hbnd := downStep_bounds is p.1 (flatSetpoint is) h
    rw [← hfst] at hbnd
    rw [if_neg (by simp only [hb, Bool.false_or, decide_eq_true_eq]; omega)]
      at hnu
    refine ⟨⟨hflat2, by omega, ?_, ?_⟩, ?_⟩
    · intro hlt
      omega
    · intro _
      rw [hnu, hcd2 h]
    · simp only [Nat.dist]
      omega

/-- Iterating steady ticks with BAKE off: the invariant is maintained and
the distance to the flat setpoint shrinks by at least one per tick. -/
theorem steady_run (is : ModelledRadValveInputState)
    (hb : is.inBakeMode = false) :
    ∀ (n : ℕ) (p : ℕ × ModelledRadValveState), SteadyInv is p →
      SteadyInv is (tickRun is n p) ∧
        Nat.dist (tickRun is n p).1 (flatSetpoint is) ≤
          Nat.dist p.1 (flatSetpoint is) - n := by
  intro n
  induction n with
  | zero =>
    intro p hp
    refine ⟨hp, ?_⟩
    simp only [tickRun, Nat.sub_zero]
    exact le_rfl
  | succ k ih =>
    intro p hp
    have hs := steady_step is hb p hp
    have hrest := ih (p.2.tick p.1 is) hs.1
    constructor
    · simpa only [tickRun] using hrest.1
    · have h2 := hrest.2
      have h3 := hs.2
      simp only [tickRun]
      omega

/-- With BAKE set the tick unconditionally forces 100%. -/
theorem tick_bake (is : ModelledRadValveInputState)
    (hbake : is.inBakeMode = true) (s : ModelledRadValveState) (pc : ℕ) :
    (s.tick pc is).1 = 100 := by
  simp only [ModelledRadValveState.tick, computeNewValvePC, hbake]
  simp

/-- With BAKE held, any positive number of ticks leaves the valve at 100%. -/
theorem bake_run (is : ModelledRadValveInputState)
    (hbake : is.inBakeMode = true) :
    ∀ (n : ℕ) (p : ℕ × ModelledRadValveState), 1 ≤ n →
      (tickRun is n p).1 = 100 := by
  intro n
  induction n with
  | zero =>
    intro p h
    omega
  | succ k ih =>
    intro p _
    rcases Nat.eq_zero_or_pos k with hk | hk
    · subst hk
      simp only [tickRun]
      exact tick_bake is hbake p.2 p.1
    · simp only [tickRun]
      exact ih (p.2.tick p.1 is) hk

/-- Claim C2 (spec-modelled): for every constant input snapshot (reference
temperature and flags held steady) and every initial valve percentage in
[0,100], after the tick operation has been applied 100 times from a fresh
control state the resulting percentage is either exactly 100 or strictly
below the call-for-heat threshold DEFAULT_VALVE_PC_SAFER_OPEN — the
controller never settles hovering below 100% while still calling for
heat. -/
theorem modelled_no_hover (is : ModelledRadValveInputState) (pc : ℕ)
    (hpc : pc ≤ 100) :
    (tickRun is 100 (pc, ModelledRadValveState.initial)).1 = 100 ∨
    (tickRun is 100 (pc, ModelledRadValveState.initial)).1 <
      DEFAULT_VALVE_PC_SAFER_OPEN := by
  cases hbake : is.inBakeMode with
  | true =>
    exact Or.inl (bake_run is hbake 100 (pc, ModelledRadValveState.initial)
      (by norm_num))
  | false =>
    have hinv : SteadyInv is (pc, ModelledRadValveState.initial) :=
      ⟨⟨rfl, Or.inl rfl⟩, hpc, fun _ => rfl, fun _ => rfl⟩
    have hrun := steady_run is hbake 100 (pc, ModelledRadValveState.initial)
      hinv
    have hsp := computeSetpointPC_goal is (computeRawTemp16 is)
    have hsp100 : flatSetpoint is ≤ 100 := hsp.2
    have heq : (tickRun is 100 (pc, ModelledRadValveState.initial)).1 =
        flatSetpoint is := by
      have hd := hrun.2
      simp only [Nat.dist] at hd
      omega
    rw [heq]
    exact hsp.1

/-- Witness for C2 at a concrete steady input and starting percentage. -/
theorem modelled_no_hover_witness :
    (tickRun inputTarget25 100 (37, ModelledRadValveState.initial)).1 = 100 ∨
    (tickRun inputTarget25 100 (37, ModelledRadValveState.initial)).1 <
      DEFAULT_VALVE_PC_SAFER_OPEN :=
  modelled_no_hover inputTarget25 37 (by norm_num)

/-- Claim C3 (spec-modelled): from any starting percentage, with the
dontTurnup anti-hunt lockout armed, a single tick with inBakeMode set
drives the valve percentage to exactly 100 and simultaneously arms the
dontTurndown lockout. -/
theorem modelled_bake_override (s : ModelledRadValveState) (pc : ℕ)
    (is : ModelledRadValveInputState) (hbake : is.inBakeMode = true)
    (harmed : s.dontTurnup = true) :
    (s.tick pc is).1 = 100 ∧ (s.tick pc is).2.dontTurndown = true := by
  refine ⟨tick_bake is hbake s pc, ?_⟩
  have h := tick_turnupCd s pc is
  rw [hbake] at h
  simp only [Bool.true_or, if_true] at h
  simp [ModelledRadValveState.dontTurndown, h,
    DEFAULT_ANTISEEK_VALVE_RECLOSE_DELAY_M]

/-- Witness for C3 at a concrete armed state and BAKE input. -/
theorem modelled_bake_override_witness :
    (({ ModelledRadValveState.initial with
        valveTurndownCountdownM := 3 } : ModelledRadValveState).tick 7
      { inputTarget14 with inBakeMode := true }).1 = 100 ∧
    (({ ModelledRadValveState.initial with
        valveTurndownCountdownM := 3 } : ModelledRadValveState).tick 7
      { inputTarget14 with inBakeMode := true }).2.dontTurndown = true :=
  modelled_bake_override
    { ModelledRadValveState.initial with valveTurndownCountdownM := 3 } 7
    { inputTarget14 with inBakeMode := true } rfl (by decide)

/-- With BAKE off, a tick never increases the percentage while dontTurnup is
armed (true for any history/adjusted temperature). -/
theorem computeNewValvePC_no_up (dUp dDown : Bool) (hist : List ℤ)
    (is : ModelledRadValveInputState) (adj : ℤ) (pc : ℕ)
    (hb : is.inBakeMode = false) (hd : dUp = true) :
    computeNewValvePC dUp dDown hist is adj pc ≤ pc := by
  simp only [computeNewValvePC, hb, hd, Bool.false_eq_true, if_false,
    if_true]
  split_ifs with h1 h2 h3 h4
  · exact min_le_left _ _
  · exact le_rfl
  · exact le_rfl
  · exact le_of_lt (downStep_bounds is pc (computeSetpointPC is adj) h3).2
  · exact le_rfl

/-- A tick never increases the percentage while dontTurnup is armed, with
BAKE off. -/
theorem tick_no_up (s : ModelledRadValveState) (pc : ℕ)
    (is : ModelledRadValveInputState) (hb : is.inBakeMode = false)
    (harmed : s.dontTurnup = true) :
    (s.tick pc is).1 ≤ pc := by
  simp only [ModelledRadValveState.tick]
  exact computeNewValvePC_no_up _ _ _ _ _ _ hb harmed

set_option maxRecDepth 10000 in
/-- Claim C4 (spec-modelled): with BAKE off, a tick never increases the
valve percentage while the dontTurnup lockout is armed; and concretely,
mirroring the UpDownDelay test: after closing to 0% under a low target the
lockout is armed and a tick with the target far above ambient leaves the
valve at 0%, while after the reopen cooldown
(DEFAULT_ANTISEEK_VALVE_REOPEN_DELAY_M further steady ticks) has elapsed a
tick with the target above ambient does increase the percentage again. -/
theorem modelled_anti_hunt_reopen :
    (∀ (pc : ℕ) (s : ModelledRadValveState)
      (is : ModelledRadValveInputState),
      is.inBakeMode = false → s.dontTurnup = true → (s.tick pc is).1 ≤ pc) ∧
    (let afterClose := tickRun inputTarget14 32
       (100, ModelledRadValveState.initial)
     let blocked := afterClose.2.tick afterClose.1 inputTarget32
     let cooled := tickRun inputTarget14 DEFAULT_ANTISEEK_VALVE_REOPEN_DELAY_M
       (blocked.1, blocked.2)
     afterClose.1 = 0 ∧ afterClose.2.dontTurnup = true ∧
     blocked.1 = 0 ∧
     cooled.1 = 0 ∧ cooled.2.dontTurnup = false ∧
     0 < (cooled.2.tick cooled.1 inputTarget32).1) := by
  constructor
  · intro pc s is hb harmed
    exact tick_no_up s pc is hb harmed
  · decide

/-- Witness for the C4 lockout clause at a concrete armed state. -/
theorem modelled_anti_hunt_reopen_witness :
    (({ ModelledRadValveState.initial with
        valveTurndownCountdownM := 3 } : ModelledRadValveState).tick 50
      inputTarget32).1 ≤ 50 :=
  modelled_anti_hunt_reopen.1 50
    { ModelledRadValveState.initial with valveTurndownCountdownM := 3 }
    inputTarget32 rfl (by decide)

set_option maxRecDepth 10000 in
/-- Claim C5 (spec-modelled): with no backing valve, cumulativeMovementPC
increases by exactly the absolute movement on every tick and never
decreases; and concretely, mirroring the cumulativeMovementPC test: cycling
the valve from 100% (held), down to 0% and back up to 100% under steady
extreme targets accumulates exactly 200 percentage points of travel. -/
theorem modelled_cumulative_movement :
    (∀ (s : ModelledRadValveState) (pc : ℕ)
      (is : ModelledRadValveInputState),
      (s.tick pc is).2.cumulativeMovementPC =
        s.cumulativeMovementPC + OTV0P2BASE.fnabsdiff (s.tick pc is).1 pc ∧
      s.cumulativeMovementPC ≤ (s.tick pc is).2.cumulativeMovementPC) ∧
    (let afterOpenHold := tickRun inputTarget25 50
       (100, ModelledRadValveState.initial)
     let afterClose := tickRun inputTarget10 50 afterOpenHold
     let afterReopen := tickRun inputTarget26 50 afterClose
     afterOpenHold.1 = 100 ∧ afterOpenHold.2.cumulativeMovementPC = 0 ∧
     afterClose.1 = 0 ∧ afterClose.2.cumulativeMovementPC = 100 ∧
     afterReopen.1 = 100 ∧ afterReopen.2.cumulativeMovementPC = 200) := by
  constructor
  · intro s pc is
    refine ⟨tick_cumulative s pc is, ?_⟩
    rw [tick_cumulative s pc is]
    exact Nat.le_add_right _ _
  · decide
